import Mathlib

/-!
Shallow embedding of the booking lifecycle and message synchronization core of
the trip-task repository.

Sources embedded here:
* `src/unnamed/part_005`        — `bookingService` (create / cancel / complete / accept / startTrip)
* `src/unnamed/part_007`        — `riderService` (getAvailableBookings, acceptBooking via RPC)
* `src/contexts/RiderContext.tsx` (appended SQL)
                                — the `accept_booking` stored procedure and the bookings schema
* `src/unnamed/part_003`        — ChatScreen: `updateBookingStatus`, `StatusButton`,
                                  the 2-second message poll, the realtime INSERT handler,
                                  and `sendMessage`
* `src/screens/TripScreen.tsx`  — `validateTripForm` / `handleSubmit`
* `src/lib/bookings_policies.sql` — row-level UPDATE policies on `bookings`
* `src/components/ChatPanel.tsx` — `handleSendMessage`

Timestamps are modelled as naturals ordered like the ISO strings the code
stores; principals and row ids are naturals.  Each mutating operation returns
the new store state together with an optional error message, mirroring the
`{ data, error }` results of the service layer; the `accept_booking` stored
procedure raises (and rolls back) on failure, which is modelled by returning
the untouched store with the raised message.
-/

namespace TripTask

abbrev UserId := Nat
abbrev BookingId := Nat
abbrev MessageId := Nat
abbrev Timestamp := Nat

/-- Booking status enum from `src/unnamed/part_005` / the `booking_status` SQL type. -/
inductive BookingStatus where
  | pending
  | accepted
  | on_the_way
  | completed
  | cancelled
deriving DecidableEq

/-- Booking type enum from `src/unnamed/part_005`. -/
inductive BookingType where
  | trip
  | task
deriving DecidableEq

/-- One row of the `bookings` relation (interface `Booking` in `src/unnamed/part_005`;
columns from the schema in the SQL appended to `src/contexts/RiderContext.tsx`).
The numeric placeholder columns `price`, `distance`, `duration` are omitted:
no operation embedded here reads or writes them. -/
structure Booking where
  id : BookingId
  user_id : UserId
  rider_id : Option UserId
  pickup_location : String
  dropoff_location : String
  scheduled_time : Option Timestamp
  status : BookingStatus
  created_at : Timestamp
  updated_at : Timestamp
  notes : Option String
  is_asap : Bool
  completed_at : Option Timestamp
  cancelled_at : Option Timestamp
  cancelled_by : Option UserId
  cancellation_reason : Option String
  booking_type : BookingType
  name : String
deriving DecidableEq

/-- One row of `rider_profiles` (the fields the embedded operations read). -/
structure RiderProfile where
  user_id : UserId
  is_available : Bool
deriving DecidableEq

/-- One row of `profiles` (fields read by the chat enrichment queries). -/
structure Profile where
  id : UserId
  username : Option String
  avatar_url : Option String
deriving DecidableEq

/-- One row of the `messages` relation (schema in the SQL appended to
`src/contexts/RiderContext.tsx`; `Message` type of `src/unnamed/part_003`). -/
structure Message where
  id : MessageId
  booking_id : BookingId
  sender_id : UserId
  content : String
  created_at : Timestamp
  image_url : Option String
  file_url : Option String
  file_name : Option String
deriving DecidableEq

/-- The persistent store: the relations the embedded operations touch. -/
structure Store where
  bookings : List Booking
  rider_profiles : List RiderProfile
  profiles : List Profile
  messages : List Message
deriving DecidableEq

/-! ## Acceptance: the `accept_booking` stored procedure and the service wrappers -/

/-- The WHERE clause of the conditioned UPDATE inside the `accept_booking`
stored procedure (SQL appended to `src/contexts/RiderContext.tsx`):
`id = booking_id AND status = 'pending' AND rider_id IS NULL`. -/
def acceptCondition (bid : BookingId) (b : Booking) : Bool :=
  b.id == bid && b.status == BookingStatus.pending && b.rider_id == none

/-- Availability precondition checked first by `accept_booking`: the caller has
a row in `rider_profiles` with `is_available = true`. -/
def riderAvailable (s : Store) (uid : UserId) : Bool :=
  s.rider_profiles.any fun rp => rp.user_id == uid && rp.is_available

/-- The `accept_booking(booking_id)` stored procedure
(`src/contexts/RiderContext.tsx`, appended SQL, lines 367-415), run by
`riderService.acceptBooking` through `supabase.rpc` (`src/unnamed/part_007`).
It checks the caller is an available rider, checks the booking is still
`pending` with no rider, then issues the UPDATE conditioned on
`status = 'pending' AND rider_id IS NULL`.  A raised exception aborts the
transaction, so on error the store is returned unchanged. -/
def accept_booking (s : Store) (uid : UserId) (bid : BookingId) (now : Timestamp) :
    Store × Option String :=
  if !(riderAvailable s uid) then
    (s, some "User is not an available rider")
  else if !(s.bookings.any (acceptCondition bid)) then
    (s, some "Booking is not available for acceptance")
  else
    ({ s with bookings := s.bookings.map (fun b =>
        if acceptCondition bid b then
          { b with status := BookingStatus.accepted, rider_id := some uid, updated_at := now }
        else b) }, none)

/-- The USING clauses, OR-combined, of the row-level UPDATE policies on
`bookings` that the client-composed updates run under (the policy block
appended to `src/contexts/RiderContext.tsx`: "Users can update their own
bookings" admits `auth.uid() = user_id OR auth.uid() = rider_id`, "Riders can
update assigned bookings" admits `auth.uid() = rider_id`, and "Riders can
accept pending bookings" admits `status = 'pending' AND rider_id IS NULL` for
an available rider; `src/lib/bookings_policies.sql` is the same set without
the accept policy, so this union covers both variants). -/
def bookingsUpdateUsing (s : Store) (uid : UserId) (b : Booking) : Bool :=
  b.user_id == uid || b.rider_id == some uid ||
    (b.status == BookingStatus.pending && b.rider_id == none && riderAvailable s uid)

/-- The WITH CHECK clauses, OR-combined, of the same UPDATE policies,
evaluated on the updated row: `auth.uid() = user_id OR auth.uid() =
rider_id`, or (accept policy) `status = 'accepted' AND rider_id =
auth.uid()`.  A matched row whose updated image passes no WITH CHECK makes
the statement raise. -/
def bookingsUpdateCheck (uid : UserId) (b : Booking) : Bool :=
  b.user_id == uid || b.rider_id == some uid ||
    (b.status == BookingStatus.accepted && b.rider_id == some uid)

/-- The row image written by `bookingService.acceptBooking`:
`status = 'accepted', rider_id = riderId`, other columns untouched. -/
def acceptRow (riderId : UserId) (b : Booking) : Booking :=
  { b with status := BookingStatus.accepted, rider_id := some riderId }

/-- The effective row filter of the `bookingService.acceptBooking` UPDATE:
the requested id, as admitted by the row-level UPDATE policies for the
acting session `uid`.  The query itself carries no `status = 'pending' AND
rider_id IS NULL` condition. -/
def acceptServiceCondition (s : Store) (uid : UserId) (bid : BookingId)
    (b : Booking) : Bool :=
  b.id == bid && bookingsUpdateUsing s uid b

/-- `bookingService.acceptBooking(id, riderId)` (`src/unnamed/part_005`,
lines 188-208) as executed for session `uid` under the store's row-level
UPDATE policies: an UPDATE setting `status = 'accepted', rider_id = riderId`,
filtered by `id = bid` and the policy USING clauses — and by nothing else;
the updated image must pass a WITH CHECK clause or the statement raises with
the row unchanged.  `.select().single()` reports an error when the update
returned no row.  (This service method has no call site; the app accepts
through the `accept_booking` procedure.) -/
def bookingService.acceptBooking (s : Store) (uid : UserId) (bid : BookingId)
    (riderId : UserId) : Store × Option String :=
  let matched := s.bookings.filter (acceptServiceCondition s uid bid)
  if matched.any (fun b => !(bookingsUpdateCheck uid (acceptRow riderId b))) then
    (s, some "new row violates row-level security policy for table bookings")
  else
    let s' : Store := { s with bookings := s.bookings.map (fun b =>
        if acceptServiceCondition s uid bid b then acceptRow riderId b else b) }
    if matched.length == 1 then (s', none)
    else (s', some "JSON object requested, multiple or no rows returned")

/-! ## Status advancement: `updateBookingStatus` and `StatusButton` -/

/-- The filter of the conditioned update in `updateBookingStatus`
(`src/unnamed/part_003`, lines 1060-1091): `.match(\x7b id, status: cached \x7d)`,
i.e. the row id matches and the row status equals the status the client last
observed. -/
def matchCondition (bid : BookingId) (cached : BookingStatus) (b : Booking) : Bool :=
  b.id == bid && b.status == cached

/-- `updateBookingStatus(newStatus)` from the ChatScreen
(`src/unnamed/part_003`, lines 1060-1091).  It updates `status` and
`updated_at` on the rows matching `(id, cached status)`; when no row matches
(`updateResult.length === 0`) it reports an error.  Nothing in the function
checks that `newStatus` is adjacent to the current status, and `completed_at`
is never written. -/
def updateBookingStatus (s : Store) (bid : BookingId) (cached : BookingStatus)
    (newStatus : BookingStatus) (now : Timestamp) : Store × Option String :=
  let s' : Store := { s with bookings := s.bookings.map (fun b =>
      if matchCondition bid cached b then
        { b with status := newStatus, updated_at := now }
      else b) }
  if (s.bookings.filter (matchCondition bid cached)).isEmpty then
    (s', some "Failed to update booking status")
  else (s', none)

/-- The target status that `StatusButton` (`src/unnamed/part_003`, lines
78-124) passes to `updateBookingStatus` for a given displayed status:
`accepted ↦ on_the_way`, `on_the_way ↦ completed`, nothing otherwise
(the button renders `null` for every other status). -/
def statusButtonTarget : BookingStatus → Option BookingStatus
  | BookingStatus.accepted => some BookingStatus.on_the_way
  | BookingStatus.on_the_way => some BookingStatus.completed
  | _ => none

/-! ## Cancellation and completion -/

/-- The row-level UPDATE policies on `bookings` from
`src/lib/bookings_policies.sql` (lines 25-37): update admitted when
`auth.uid() = user_id` (customer policy) or `auth.uid() = rider_id`
(rider policy); policies combine by OR. -/
def canUpdateBookingPolicy (uid : UserId) (b : Booking) : Bool :=
  b.user_id == uid || b.rider_id == some uid

/-- The effective row filter of the cancel UPDATE: the requested id, as
admitted by the row-level policy for the acting principal.  No status
appears here. -/
def cancelCondition (bid : BookingId) (uid : UserId) (b : Booking) : Bool :=
  b.id == bid && canUpdateBookingPolicy uid b

/-- `bookingService.cancelBooking(id, reason)` (`src/unnamed/part_005`, lines
142-164) as admitted by the UPDATE policies of
`src/lib/bookings_policies.sql`: an UPDATE setting the cancellation columns,
conditioned on `id = bid` and the row policy — and on nothing else; the
current status is not consulted.  `.single()` reports an error unless exactly
one row came back. -/
def bookingService.cancelBooking (s : Store) (bid : BookingId) (uid : UserId)
    (reason : String) (now : Timestamp) : Store × Option String :=
  let s' : Store := { s with bookings := s.bookings.map (fun b =>
      if cancelCondition bid uid b then
        { b with status := BookingStatus.cancelled, cancelled_at := some now,
                 cancelled_by := some uid, cancellation_reason := some reason }
      else b) }
  if (s.bookings.countP (cancelCondition bid uid)) == 1
  then (s', none)
  else (s', some "JSON object requested, multiple or no rows returned")

/-- `bookingService.completeBooking(id)` (`src/unnamed/part_005`, lines
166-186): UPDATE setting `status = 'completed', completed_at = now`,
conditioned only on `id = bid`.  (This service method has no call site in the
repository; the live completion path is `updateBookingStatus`.) -/
def bookingService.completeBooking (s : Store) (bid : BookingId) (now : Timestamp) :
    Store × Option String :=
  let s' : Store := { s with bookings := s.bookings.map (fun b =>
      if b.id == bid then
        { b with status := BookingStatus.completed, completed_at := some now }
      else b) }
  if s.bookings.any (fun b => b.id == bid) then (s', none)
  else (s', some "JSON object requested, multiple or no rows returned")

/-! ## Creation: `validateTripForm` and `bookingService.createBooking` -/

/-- Whitespace characters removed by the JS `String.prototype.trim` calls in
the source (space, tab, newline, carriage return). -/
def isWsChar (c : Char) : Bool :=
  c == ' ' || c == '\t' || c == '\n' || c == '\r'

/-- The JS `trim()` used throughout the source: strip leading and trailing
whitespace. -/
def jsTrim (s : String) : String :=
  ⟨((s.data.dropWhile isWsChar).reverse.dropWhile isWsChar).reverse⟩

/-- The booking-creation form state of `src/screens/TripScreen.tsx`. -/
structure TripForm where
  name : String
  pickupLocation : String
  dropoffLocation : String
  isASAP : Bool
  scheduledTime : Option Timestamp
  specialNotes : String
deriving DecidableEq

/-- The validation-error list built by `validateTripForm`
(`src/screens/TripScreen.tsx`, lines 124-142). -/
def validateTripFormErrors (f : TripForm) : List String :=
  (if (jsTrim f.name).isEmpty then ["Trip name is required"] else []) ++
  (if (jsTrim f.pickupLocation).isEmpty then ["Pickup location is required"] else []) ++
  (if (jsTrim f.dropoffLocation).isEmpty then ["Dropoff location is required"] else []) ++
  (if !f.isASAP && f.scheduledTime.isNone then ["Please select a scheduled time"] else [])

/-- `validateTripForm` returns true when the error object stayed empty. -/
def validateTripForm (f : TripForm) : Bool :=
  (validateTripFormErrors f).isEmpty

/-- `bookingService.createBooking(data)` (`src/unnamed/part_005`, lines 52-84):
INSERT of the form fields; `status` defaults to `'pending'` and `rider_id` to
NULL per the `bookings` schema, `completed_at` / `cancelled_at` /
`cancelled_by` / `cancellation_reason` start NULL, and `created_at` /
`updated_at` default to `NOW()`. -/
def bookingService.createBooking (s : Store) (uid : UserId) (f : TripForm)
    (newId : BookingId) (now : Timestamp) : Store × Booking :=
  let b : Booking := {
    id := newId
    user_id := uid
    rider_id := none
    pickup_location := f.pickupLocation
    dropoff_location := f.dropoffLocation
    scheduled_time := f.scheduledTime
    status := BookingStatus.pending
    created_at := now
    updated_at := now
    notes := if !(jsTrim f.specialNotes).isEmpty
             then some ("Special Notes: " ++ f.specialNotes) else none
    is_asap := f.isASAP
    completed_at := none
    cancelled_at := none
    cancelled_by := none
    cancellation_reason := none
    booking_type := BookingType.trip
    name := f.name }
  ({ s with bookings := s.bookings ++ [b] }, b)

/-- `handleSubmit` of `src/screens/TripScreen.tsx`: run `validateTripForm`;
on failure surface the first error and call nothing, otherwise call
`bookingService.createBooking`. -/
def handleSubmit (s : Store) (uid : UserId) (f : TripForm)
    (newId : BookingId) (now : Timestamp) : Store × Option String :=
  if !(validateTripForm f) then
    (s, some "Missing Information")
  else
    ((bookingService.createBooking s uid f newId now).1, none)

/-! ## Rider listing: `riderService.getAvailableBookings` -/

/-- Row order `created_at` descending, as requested by
`.order('created_at', ascending: false)`. -/
def createdDesc (a b : Booking) : Prop := b.created_at ≤ a.created_at

instance : DecidableRel createdDesc := fun a b =>
  inferInstanceAs (Decidable (b.created_at ≤ a.created_at))

instance : IsTotal Booking createdDesc :=
  ⟨fun a b => Nat.le_total b.created_at a.created_at⟩

instance : IsTrans Booking createdDesc :=
  ⟨fun _ _ _ hab hbc => Nat.le_trans hbc hab⟩

/-- The bookings query of `riderService.getAvailableBookings`
(`src/unnamed/part_007`, lines 97-161): rows with `status = 'pending'` and
`rider_id IS NULL`, ordered by `created_at` descending.  (The subsequent
profile join decorates each row with its customer profile and keeps the row
order; the booking rows are what the claim speaks about.) -/
def riderService.getAvailableBookings (s : Store) : List Booking :=
  List.insertionSort createdDesc
    (s.bookings.filter fun b =>
      b.status == BookingStatus.pending && b.rider_id == none)

/-! ## Message synchronization: poll path, push path, sendMessage -/

/-- The enriched sender attached to a chat message (`MessageSender` in
`src/unnamed/part_003`). -/
structure MessageSender where
  id : UserId
  username : String
  avatar_url : String
deriving DecidableEq

/-- A message as shown in the chat view, enriched with its sender profile
(`MessageWithSender` in `src/unnamed/part_003`). -/
structure MessageWithSender where
  id : MessageId
  content : String
  created_at : Timestamp
  sender_id : UserId
  booking_id : BookingId
  sender : MessageSender
  image_url : Option String
  file_url : Option String
  file_name : Option String
deriving DecidableEq

/-- Profile lookup by id, as performed both by the bulk
`.in('id', senderIds)` fetch of the poll cycle and by the
`.eq('id', sender_id).single()` fetch of the push handler. -/
def lookupProfile (profiles : List Profile) (uid : UserId) : Option Profile :=
  profiles.find? fun p => p.id == uid

/-- Enrichment of one message with its sender profile, with the
`'Unknown'` / `''` fallbacks of `src/unnamed/part_003`; `none` when the
sender profile is not among the fetched profiles (the message is then
omitted from the batch, or the push handler returns early). -/
def enrichMessage (profiles : List Profile) (m : Message) : Option MessageWithSender :=
  match lookupProfile profiles m.sender_id with
  | none => none
  | some p => some {
      id := m.id
      content := m.content
      created_at := m.created_at
      sender_id := m.sender_id
      booking_id := m.booking_id
      sender := { id := p.id, username := p.username.getD "Unknown",
                  avatar_url := p.avatar_url.getD "" }
      image_url := m.image_url
      file_url := m.file_url
      file_name := m.file_name }

/-- Row order `created_at` ascending used by the message queries
(`.order('created_at', ascending: true)`). -/
def createdAsc (a b : Message) : Prop := a.created_at ≤ b.created_at

instance : DecidableRel createdAsc := fun a b =>
  inferInstanceAs (Decidable (a.created_at ≤ b.created_at))

instance : IsTotal Message createdAsc :=
  ⟨fun a b => Nat.le_total a.created_at b.created_at⟩

instance : IsTrans Message createdAsc :=
  ⟨fun _ _ _ hab hbc => Nat.le_trans hab hbc⟩

/-- The store-side message query of the poll cycle: all messages of the
booking ordered by `created_at` ascending (no further sort key). -/
def fetchBookingMessages (s : Store) (bid : BookingId) : List Message :=
  List.insertionSort createdAsc (s.messages.filter fun m => m.booking_id == bid)

/-- One cycle of the 2-second poll (`src/unnamed/part_003`, lines 264-310):
re-fetch the booking's messages ordered by `created_at`, bulk-fetch the
sender profiles, map each message to its enriched form — or to `null` when
its sender profile is missing — and keep the non-null ones.  The result
REPLACES the chat view (`setMessages(messagesWithSenders)`). -/
def pollCycle (s : Store) (bid : BookingId) : List MessageWithSender :=
  (fetchBookingMessages s bid).filterMap (enrichMessage s.profiles)

/-- The realtime INSERT handler (`src/unnamed/part_003`, lines 313-361): fetch
the sender profile of the pushed message; on failure return without touching
the view; otherwise APPEND the enriched message to the current view.  No
check against the entries already present is made. -/
def pushInsertHandler (s : Store) (view : List MessageWithSender) (m : Message) :
    List MessageWithSender :=
  match enrichMessage s.profiles m with
  | none => view
  | some mw => view ++ [mw]

/-- `sendMessage` of `src/unnamed/part_003` (lines 442-485) and
`handleSendMessage` of `src/components/ChatPanel.tsx` (lines 86-103): when the
composed text trims to the empty string, return before contacting the store
(no insert, no error); otherwise insert a row whose `content` is the trimmed
text. -/
def sendMessage (s : Store) (bid : BookingId) (uid : UserId) (content : String)
    (newId : MessageId) (now : Timestamp) : Store × Option Message :=
  if (jsTrim content).isEmpty then (s, none)
  else
    let msg : Message := {
      id := newId
      booking_id := bid
      sender_id := uid
      content := jsTrim content
      created_at := now
      image_url := none
      file_url := none
      file_name := none }
    ({ s with messages := s.messages ++ [msg] }, some msg)

/-! ## The lifecycle operations reachable from the app's call sites

`createBooking` is called from the trip/task forms, `accept_booking` through
`riderService.acceptBooking` (`src/unnamed/part_002`,
`src/screens/AvailableBookingsScreen.tsx`), `updateBookingStatus` only from
`StatusButton` (which requests exactly `statusButtonTarget` of the displayed
status), and `bookingService.cancelBooking` from
`src/screens/BookingDetailsScreen.tsx`.  The remaining `bookingService`
methods (`acceptBooking`, `completeBooking`, `startTrip`, `updateBooking`)
have no call site. -/

inductive LiveOp where
  | create (uid : UserId) (f : TripForm) (newId : BookingId) (now : Timestamp)
  | accept (uid : UserId) (bid : BookingId) (now : Timestamp)
  | advance (bid : BookingId) (cached : BookingStatus) (now : Timestamp)
  | cancel (bid : BookingId) (uid : UserId) (reason : String) (now : Timestamp)

/-- Effect of one app-reachable lifecycle operation on the store. -/
def applyLiveOp (s : Store) : LiveOp → Store
  | LiveOp.create uid f newId now => (handleSubmit s uid f newId now).1
  | LiveOp.accept uid bid now => (accept_booking s uid bid now).1
  | LiveOp.advance bid cached now =>
      match statusButtonTarget cached with
      | some target => (updateBookingStatus s bid cached target now).1
      | none => s
  | LiveOp.cancel bid uid reason now =>
      (bookingService.cancelBooking s bid uid reason now).1

/-- Successor along the status chain
`pending → accepted → on_the_way → completed`. -/
def chainSucc : BookingStatus → Option BookingStatus
  | BookingStatus.pending => some BookingStatus.accepted
  | BookingStatus.accepted => some BookingStatus.on_the_way
  | BookingStatus.on_the_way => some BookingStatus.completed
  | BookingStatus.completed => none
  | BookingStatus.cancelled => none

/-! ## Concrete fixtures used by witnesses and counterexamples -/

/-- A booking row with the fields the lifecycle operations inspect; the
remaining columns take innocuous defaults. -/
def mkBooking (i : BookingId) (uid : UserId) (rid : Option UserId)
    (st : BookingStatus) (created : Timestamp) : Booking :=
  { id := i, user_id := uid, rider_id := rid, pickup_location := "A",
    dropoff_location := "B", scheduled_time := none, status := st,
    created_at := created, updated_at := created, notes := none,
    is_asap := true, completed_at := none, cancelled_at := none,
    cancelled_by := none, cancellation_reason := none,
    booking_type := BookingType.trip, name := "N" }

/-- A plain-text chat message row. -/
def mkMessage (i : MessageId) (bid : BookingId) (sid : UserId)
    (created : Timestamp) : Message :=
  { id := i, booking_id := bid, sender_id := sid, content := "hi",
    created_at := created, image_url := none, file_url := none,
    file_name := none }

/-- Store with one booking already claimed by rider 3; rider 4 is available. -/
def storeClaimed : Store :=
  { bookings := [mkBooking 1 2 (some 3) BookingStatus.accepted 10],
    rider_profiles := [{ user_id := 4, is_available := true }],
    profiles := [], messages := [] }

/-- Store with one unclaimed pending booking; rider 4 is available. -/
def storePending : Store :=
  { bookings := [mkBooking 1 2 none BookingStatus.pending 10],
    rider_profiles := [{ user_id := 4, is_available := true }],
    profiles := [], messages := [] }

/-- Store with a completed booking (owner 2, rider 3). -/
def storeCompleted : Store :=
  { bookings := [{ mkBooking 1 2 (some 3) BookingStatus.completed 10 with
                   completed_at := some 12 }],
    rider_profiles := [], profiles := [], messages := [] }

/-- Store with a booking the rider is driving (status `on_the_way`). -/
def storeOnTheWay : Store :=
  { bookings := [mkBooking 1 2 (some 3) BookingStatus.on_the_way 10],
    rider_profiles := [], profiles := [], messages := [] }

/-- Store with a booking rider 3 is already driving (owner 2, status
`on_the_way`); rider 3 is an available rider. -/
def storeDriving : Store :=
  { bookings := [mkBooking 1 2 (some 3) BookingStatus.on_the_way 10],
    rider_profiles := [{ user_id := 3, is_available := true }],
    profiles := [], messages := [] }

/-- Store with a second completed booking fixture (owner 6, rider 7). -/
def storeDone : Store :=
  { bookings := [{ mkBooking 4 6 (some 7) BookingStatus.completed 20 with
                   completed_at := some 23 }],
    rider_profiles := [], profiles := [], messages := [] }

/-- Store holding one chat message whose sender profile is present. -/
def storeChat : Store :=
  { bookings := [], rider_profiles := [],
    profiles := [{ id := 2, username := some "ann", avatar_url := none }],
    messages := [mkMessage 5 1 2 10] }

/-- The message of `storeChat` as the chat view renders it after enrichment
with the sender profile of user 2. -/
def mwChat : MessageWithSender :=
  { id := 5, content := "hi", created_at := 10, sender_id := 2,
    booking_id := 1,
    sender := { id := 2, username := "ann", avatar_url := "" },
    image_url := none, file_url := none, file_name := none }

/-- Store with two messages for booking 1; the profile of sender 2 is
missing, the profile of sender 3 is present. -/
def storePollGap : Store :=
  { bookings := [], rider_profiles := [],
    profiles := [{ id := 3, username := some "bob", avatar_url := none }],
    messages := [mkMessage 5 1 2 10, mkMessage 6 1 3 11] }

/-- The same store one cycle later, after the missing profile appeared. -/
def storePollFull : Store :=
  { bookings := [], rider_profiles := [],
    profiles := [{ id := 3, username := some "bob", avatar_url := none },
                 { id := 2, username := some "ann", avatar_url := none }],
    messages := [mkMessage 5 1 2 10, mkMessage 6 1 3 11] }

/-- Store with one pending and one claimed booking, for the listing claim. -/
def storeMixed : Store :=
  { bookings := [mkBooking 1 2 none BookingStatus.pending 10,
                 mkBooking 2 4 (some 5) BookingStatus.accepted 11],
    rider_profiles := [], profiles := [], messages := [] }

/-- The booking of `storePending` as it stands after rider 4 accepts it at
time 9. -/
def acceptedFixture : Booking :=
  { mkBooking 1 2 none BookingStatus.pending 10 with
      status := BookingStatus.accepted
      rider_id := some 4
      updated_at := 9 }

/-- A fully-filled trip form. -/
def exForm : TripForm :=
  { name := "Grocery run", pickupLocation := "Main St 1",
    dropoffLocation := "Oak Ave 2", isASAP := true, scheduledTime := none,
    specialNotes := "" }

/-- The empty store. -/
def emptyStore : Store :=
  { bookings := [], rider_profiles := [], profiles := [], messages := [] }

/-! ## General list lemmas -/

/-- Mapping a conditional rewrite over a list no element of which satisfies
the condition leaves the list unchanged. -/
theorem map_if_eq_self {α : Type} (p : α → Bool) (f : α → α) :
    ∀ l : List α, (∀ a ∈ l, p a = false) →
      (l.map fun a => if p a then f a else a) = l := by
  intro l
  induction l with
  | nil => intro _; rfl
  | cons a t ih =>
    intro h
    have ha := h a (List.mem_cons_self a t)
    simp only [List.map_cons, ha, Bool.false_eq_true, if_false]
    rw [ih (fun x hx => h x (List.mem_cons_of_mem a hx))]

/-- When a key function is injective on the list (no duplicate keys) and the
predicate pins the key, exactly one element satisfies the predicate. -/
theorem countP_eq_one_of_key {α β : Type} (f : α → β) (p : α → Bool) (a : α) :
    ∀ l : List α, (l.map f).Nodup → a ∈ l → p a = true →
      (∀ x ∈ l, p x = true → f x = f a) → l.countP p = 1 := by
  intro l
  induction l with
  | nil => intro _ ha; cases ha
  | cons b t ih =>
    intro hnd ha hpa hkey
    rw [List.map_cons, List.nodup_cons] at hnd
    obtain ⟨hbf, hndt⟩ := hnd
    by_cases hpb : p b = true
    · rw [List.countP_cons]
      have h0 : t.countP p = 0 := by
        rw [List.countP_eq_zero]
        intro x hx hpx
        have hfx : f x = f a := hkey x (List.mem_cons_of_mem b hx) hpx
        have hfb : f b = f a := hkey b (List.mem_cons_self b t) hpb
        exact hbf (by rw [hfb, ← hfx]; exact List.mem_map_of_mem f hx)
      rw [h0, hpb]
      rfl
    · rw [List.countP_cons]
      have hat : a ∈ t := by
        rcases List.mem_cons.mp ha with h | h
        · exact absurd (h ▸ hpa) hpb
        · exact h
      have hpb2 : p b = false := by revert hpb; cases p b <;> simp
      rw [hpb2]
      simp only [Bool.false_eq_true, if_false, Nat.add_zero]
      exact ih hndt hat hpa
        (fun x hx hpx => hkey x (List.mem_cons_of_mem b hx) hpx)

/-- Every pair of a list zipped with its own image under a map consists of an
element and its image. -/
theorem zip_map_snd {α : Type} (g : α → α) :
    ∀ l : List α, ∀ pr ∈ l.zip (l.map g), pr.2 = g pr.1 := by
  intro l
  induction l with
  | nil => intro pr h; cases h
  | cons a t ih =>
    intro pr h
    rw [List.map_cons, List.zip_cons_cons] at h
    rcases List.mem_cons.mp h with h | h
    · rw [h]
    · exact ih pr h

/-! ## Facts about message enrichment and the poll pipeline -/

/-- A successfully enriched message keeps its identifier and creation time,
and its sender profile was found. -/
theorem enrich_some_facts {ps : List Profile} {m : Message} {mw : MessageWithSender}
    (h : enrichMessage ps m = some mw) :
    mw.id = m.id ∧ mw.created_at = m.created_at ∧
      (lookupProfile ps m.sender_id).isSome = true := by
  unfold enrichMessage at h
  cases hl : lookupProfile ps m.sender_id with
  | none => rw [hl] at h; cases h
  | some p =>
    rw [hl] at h
    injection h with h2
    rw [← h2]
    exact ⟨rfl, rfl, rfl⟩

/-- When the sender profile is available, enrichment succeeds and preserves
the message identifier. -/
theorem enrich_isSome {ps : List Profile} {m : Message}
    (h : (lookupProfile ps m.sender_id).isSome = true) :
    ∃ mw, enrichMessage ps m = some mw ∧ mw.id = m.id := by
  unfold enrichMessage
  cases hl : lookupProfile ps m.sender_id with
  | none => rw [hl] at h; cases h
  | some p => exact ⟨_, rfl, rfl⟩

/-- Enrichment of a list sorted by creation time yields a list sorted by
creation time: `enrichMessage` preserves the sort key and `filterMap`
preserves relative order. -/
theorem sorted_filterMap_enrich (ps : List Profile) :
    ∀ l : List Message, l.Sorted createdAsc →
      (l.filterMap (enrichMessage ps)).Sorted
        (fun x y : MessageWithSender => x.created_at ≤ y.created_at) := by
  intro l
  induction l with
  | nil => intro _; simp [List.Sorted]
  | cons a t ih =>
    intro h
    rw [List.sorted_cons] at h
    obtain ⟨ha, ht⟩ := h
    cases he : enrichMessage ps a with
    | none => rw [List.filterMap_cons_none he]; exact ih ht
    | some mw =>
      rw [List.filterMap_cons_some he, List.sorted_cons]
      refine ⟨?_, ih ht⟩
      intro y hy
      obtain ⟨b, hb, hbe⟩ := List.mem_filterMap.mp hy
      have h1 := (enrich_some_facts he).2.1
      have h2 := (enrich_some_facts hbe).2.1
      have h3 : a.created_at ≤ b.created_at := ha b hb
      rw [h1, h2]
      exact h3

/-- The identifiers of an enriched batch form a sublist of the identifiers of
the underlying messages. -/
theorem filterMap_enrich_ids_sublist (ps : List Profile) :
    ∀ l : List Message,
      List.Sublist ((l.filterMap (enrichMessage ps)).map MessageWithSender.id)
        (l.map Message.id) := by
  intro l
  induction l with
  | nil => simp
  | cons a t ih =>
    cases he : enrichMessage ps a with
    | none =>
      rw [List.filterMap_cons_none he, List.map_cons]
      exact ih.cons a.id
    | some mw =>
      rw [List.filterMap_cons_some he, List.map_cons, List.map_cons,
        (enrich_some_facts he).1]
      exact ih.cons₂ a.id

/-- Membership in the poll view: the enriched form of every fetched message
whose sender profile resolves is delivered. -/
theorem pollCycle_mem_of_enrichable (s : Store) (bid : BookingId) (m : Message)
    (hm : m ∈ s.messages) (hb : m.booking_id = bid)
    (hp : (lookupProfile s.profiles m.sender_id).isSome = true) :
    m.id ∈ (pollCycle s bid).map MessageWithSender.id := by
  obtain ⟨mw, hmw, hid⟩ := enrich_isSome hp
  have hmem : m ∈ fetchBookingMessages s bid := by
    have h1 : m ∈ s.messages.filter (fun x => x.booking_id == bid) :=
      List.mem_filter.mpr ⟨hm, by simp [hb]⟩
    exact ((List.perm_insertionSort createdAsc _).mem_iff).mpr h1
  have : mw ∈ pollCycle s bid :=
    List.mem_filterMap.mpr ⟨m, hmem, hmw⟩
  exact hid ▸ List.mem_map_of_mem MessageWithSender.id this

/-- Exclusion from the poll view: when the sender profile of a message is
missing and message identifiers are unique, that identifier is absent from
the delivered batch. -/
theorem pollCycle_not_mem_of_missing (s : Store) (bid : BookingId) (m : Message)
    (hnd : (s.messages.map Message.id).Nodup)
    (hm : m ∈ s.messages)
    (hp : lookupProfile s.profiles m.sender_id = none) :
    m.id ∉ (pollCycle s bid).map MessageWithSender.id := by
  intro hmem
  obtain ⟨mw, hmw, hid⟩ := List.mem_map.mp hmem
  obtain ⟨m2, hm2, he2⟩ := List.mem_filterMap.mp hmw
  have hm2s : m2 ∈ s.messages := by
    have h1 := ((List.perm_insertionSort createdAsc _).mem_iff).mp hm2
    exact (List.mem_filter.mp h1).1
  have hsame : m2 = m := by
    have hids : m2.id = m.id := by rw [← (enrich_some_facts he2).1, hid]
    exact List.inj_on_of_nodup_map hnd hm2s hm hids
  have := (enrich_some_facts he2).2.2
  rw [hsame, hp] at this
  cases this

/-! ## Facts about the booking operations -/

/-- The `acceptCondition` spelled out. -/
theorem acceptCondition_facts {bid : BookingId} {b : Booking}
    (h : acceptCondition bid b = true) :
    b.id = bid ∧ b.status = BookingStatus.pending ∧ b.rider_id = none := by
  simp only [acceptCondition, Bool.and_eq_true, beq_iff_eq] at h
  exact ⟨h.1.1, h.1.2, h.2⟩

/-- The `matchCondition` spelled out. -/
theorem matchCondition_facts {bid : BookingId} {cached : BookingStatus} {b : Booking}
    (h : matchCondition bid cached b = true) :
    b.id = bid ∧ b.status = cached := by
  simp only [matchCondition, Bool.and_eq_true, beq_iff_eq] at h
  exact h

/-- Whatever branch `updateBookingStatus` reports, the store it returns is
the conditioned map over the bookings. -/
theorem updateBookingStatus_fst (s : Store) (bid : BookingId)
    (cached target : BookingStatus) (now : Timestamp) :
    (updateBookingStatus s bid cached target now).1
      = { s with bookings := s.bookings.map (fun b =>
          if matchCondition bid cached b then
            { b with status := target, updated_at := now }
          else b) } := by
  unfold updateBookingStatus
  split <;> rfl

/-- Whatever branch `bookingService.cancelBooking` reports, the store it
returns is the conditioned map over the bookings. -/
theorem cancelBooking_fst (s : Store) (bid : BookingId) (uid : UserId)
    (reason : String) (now : Timestamp) :
    (bookingService.cancelBooking s bid uid reason now).1
      = { s with bookings := s.bookings.map (fun b =>
          if cancelCondition bid uid b then
            { b with status := BookingStatus.cancelled, cancelled_at := some now,
                     cancelled_by := some uid, cancellation_reason := some reason }
          else b) } := by
  unfold bookingService.cancelBooking
  split <;> rfl

/-- Reading one position of a conditioned row update: the row is unchanged,
or it satisfied the condition and was rewritten. -/
theorem map_cond_getElem {α : Type} (p : α → Bool) (g : α → α) (l : List α)
    (i : Nat) (a a2 : α) (ha : l[i]? = some a)
    (ha2 : (l.map fun x => if p x then g x else x)[i]? = some a2) :
    a2 = a ∨ (p a = true ∧ a2 = g a) := by
  rw [List.getElem?_map, ha] at ha2
  cases hp : p a
  · left
    simp [hp] at ha2
    exact ha2.symm
  · right
    refine ⟨rfl, ?_⟩
    simp [hp] at ha2
    exact ha2.symm

/-! ## Claim theorems -/

/-- C9: every booking returned by `riderService.getAvailableBookings` has
status `pending` and no rider, and the returned list is ordered by
`created_at` descending; consequently no accepted, on-the-way, completed, or
cancelled booking is ever offered as available. -/
theorem getAvailableBookings_pending_unassigned_sorted (s : Store) :
    (∀ b ∈ riderService.getAvailableBookings s,
        b.status = BookingStatus.pending ∧ b.rider_id = none) ∧
    (riderService.getAvailableBookings s).Sorted createdDesc := by
  constructor
  · intro b hb
    have h1 := ((List.perm_insertionSort createdDesc _).mem_iff).mp hb
    have h2 := (List.mem_filter.mp h1).2
    simp only [Bool.and_eq_true, beq_iff_eq] at h2
    exact h2
  · exact List.sorted_insertionSort createdDesc _

/-- Witness for C9 at a concrete store holding one pending and one accepted
booking. -/
theorem getAvailableBookings_witness :
    (mkBooking 1 2 none BookingStatus.pending 10).status = BookingStatus.pending ∧
    (mkBooking 1 2 none BookingStatus.pending 10).rider_id = none :=
  (getAvailableBookings_pending_unassigned_sorted storeMixed).1
    (mkBooking 1 2 none BookingStatus.pending 10) (by decide)

/-- C10: sending a chat message whose composed content trims to empty is a
no-op — no row is inserted and no error is raised; for non-blank content the
stored row's content is the input with surrounding whitespace removed. -/
theorem sendMessage_blank_noop_trim (s : Store) (bid : BookingId) (uid : UserId)
    (content : String) (newId : MessageId) (now : Timestamp) :
    ((jsTrim content).isEmpty = true →
        sendMessage s bid uid content newId now = (s, none)) ∧
    ((jsTrim content).isEmpty = false →
        ∃ m, sendMessage s bid uid content newId now
            = ({ s with messages := s.messages ++ [m] }, some m) ∧
          m.content = jsTrim content ∧ m.booking_id = bid ∧ m.sender_id = uid) := by
  constructor
  · intro h
    simp [sendMessage, h]
  · intro h
    refine ⟨{ id := newId, booking_id := bid, sender_id := uid,
              content := jsTrim content, created_at := now,
              image_url := none, file_url := none, file_name := none },
            ?_, rfl, rfl, rfl⟩
    simp [sendMessage, h]

/-- Witness for C10: whitespace-only content leaves the store untouched. -/
theorem sendMessage_witness :
    sendMessage emptyStore 1 2 "   " 9 5 = (emptyStore, none) :=
  (sendMessage_blank_noop_trim emptyStore 1 2 "   " 9 5).1 (by decide)

/-- C7: booking creation fails before reaching the store when the display
name, pickup or dropoff is blank, or the trip is not ASAP and has no
scheduled time; otherwise exactly one new row is appended with status
`pending` and no rider. -/
theorem handleSubmit_validation (s : Store) (uid : UserId) (f : TripForm)
    (newId : BookingId) (now : Timestamp) :
    (((jsTrim f.name).isEmpty = true ∨ (jsTrim f.pickupLocation).isEmpty = true ∨
      (jsTrim f.dropoffLocation).isEmpty = true ∨
      (f.isASAP = false ∧ f.scheduledTime = none)) →
        handleSubmit s uid f newId now = (s, some "Missing Information")) ∧
    ((jsTrim f.name).isEmpty = false → (jsTrim f.pickupLocation).isEmpty = false →
     (jsTrim f.dropoffLocation).isEmpty = false →
     (f.isASAP = true ∨ f.scheduledTime.isSome = true) →
        ∃ b, handleSubmit s uid f newId now
            = ({ s with bookings := s.bookings ++ [b] }, none) ∧
          b.status = BookingStatus.pending ∧ b.rider_id = none ∧
          b.user_id = uid ∧ b.pickup_location = f.pickupLocation ∧
          b.dropoff_location = f.dropoffLocation ∧ b.name = f.name ∧
          b.completed_at = none ∧ b.cancelled_at = none) := by
  have hval : validateTripForm f
      = ((!(jsTrim f.name).isEmpty) && (!(jsTrim f.pickupLocation).isEmpty) &&
         (!(jsTrim f.dropoffLocation).isEmpty) &&
         (f.isASAP || f.scheduledTime.isSome)) := by
    unfold validateTripForm validateTripFormErrors
    cases h1 : (jsTrim f.name).isEmpty <;>
      cases h2 : (jsTrim f.pickupLocation).isEmpty <;>
      cases h3 : (jsTrim f.dropoffLocation).isEmpty <;>
      cases h4 : f.isASAP <;> cases h5 : f.scheduledTime <;> simp
  constructor
  · intro h
    have hfalse : validateTripForm f = false := by
      rw [hval]
      rcases h with h | h | h | ⟨ha, hs⟩
      · simp [h]
      · simp [h]
      · simp [h]
      · simp [ha, hs]
    simp [handleSubmit, hfalse]
  · intro h1 h2 h3 h4
    have htrue : validateTripForm f = true := by
      rw [hval]
      rcases h4 with h | h <;> simp [h1, h2, h3, h]
    refine ⟨(bookingService.createBooking s uid f newId now).2,
            ?_, rfl, rfl, rfl, rfl, rfl, rfl, rfl, rfl⟩
    simp [handleSubmit, htrue, bookingService.createBooking]

/-- Witness for C7: a filled-in ASAP trip form creates a pending, unassigned
booking. -/
theorem handleSubmit_witness :
    ∃ b, handleSubmit emptyStore 7 exForm 99 50
        = ({ emptyStore with bookings := emptyStore.bookings ++ [b] }, none) ∧
      b.status = BookingStatus.pending ∧ b.rider_id = none ∧
      b.user_id = 7 ∧ b.pickup_location = exForm.pickupLocation ∧
      b.dropoff_location = exForm.dropoffLocation ∧ b.name = exForm.name ∧
      b.completed_at = none ∧ b.cancelled_at = none :=
  (handleSubmit_validation emptyStore 7 exForm 99 50).2
    (by decide) (by decide) (by decide) (Or.inl rfl)

/-- C3 (failing input): the live completion path — the rider's StatusButton
press routed through `updateBookingStatus` — moves an on-the-way booking to
`completed` without writing `completed_at`, so afterwards the booking has
status `completed` and `completed_at = NULL`, contradicting the claimed
invariant that `completed_at` is non-null iff status = Completed and is set
at that transition. -/
theorem updateBookingStatus_leaves_completed_at_null :
    ((updateBookingStatus storeOnTheWay 1 BookingStatus.on_the_way
        BookingStatus.completed 9).2 = none) ∧
    ((updateBookingStatus storeOnTheWay 1 BookingStatus.on_the_way
        BookingStatus.completed 9).1.bookings.map
          (fun b => (b.status, b.completed_at))
        = [(BookingStatus.completed, none)]) := by decide

/-- C4 (counterexample): on a Completed booking whose status the caller has
observed, requesting target OnTheWay does not fail — the conditioned match
`(id, status = completed)` succeeds, the operation reports no error, and the
row moves backward from `completed` to `on_the_way`.  This refutes the
claimed `InvalidTransition` failure with the row unchanged. -/
theorem updateBookingStatus_completed_to_on_the_way :
    (storeCompleted.bookings.map Booking.status = [BookingStatus.completed]) ∧
    ((updateBookingStatus storeCompleted 1 BookingStatus.completed
        BookingStatus.on_the_way 9).2 = none) ∧
    ((updateBookingStatus storeCompleted 1 BookingStatus.completed
        BookingStatus.on_the_way 9).1.bookings.map Booking.status
      = [BookingStatus.on_the_way]) := by decide

/-- C4 (amended): `updateBookingStatus` guards only on the row still having
the status the caller last observed — not on target adjacency and not on the
actor.  When no row matches the pair `(id, cached status)` the write affects
zero rows, the operation fails, and the store is unchanged; when a row
matches, the operation succeeds and writes the requested target status,
whatever it is, leaving `completed_at` untouched.  Adjacency comes only from
the `StatusButton` UI, which requests exactly the immediate successor
(`accepted → on_the_way`, `on_the_way → completed`) and renders no button in
any other state. -/
theorem updateBookingStatus_conditioned_on_cached (s : Store) (bid : BookingId)
    (cached target : BookingStatus) (now : Timestamp) :
    ((∀ b ∈ s.bookings, matchCondition bid cached b = false) →
        updateBookingStatus s bid cached target now
          = (s, some "Failed to update booking status")) ∧
    (∀ b ∈ s.bookings, matchCondition bid cached b = true →
        b.status = cached ∧
        (updateBookingStatus s bid cached target now).2 = none ∧
        ∃ b2 ∈ (updateBookingStatus s bid cached target now).1.bookings,
          b2.id = b.id ∧ b2.status = target ∧ b2.updated_at = now ∧
          b2.completed_at = b.completed_at) ∧
    (statusButtonTarget BookingStatus.accepted = some BookingStatus.on_the_way ∧
     statusButtonTarget BookingStatus.on_the_way = some BookingStatus.completed ∧
     statusButtonTarget BookingStatus.pending = none ∧
     statusButtonTarget BookingStatus.completed = none ∧
     statusButtonTarget BookingStatus.cancelled = none) := by
  refine ⟨?_, ?_, rfl, rfl, rfl, rfl, rfl⟩
  · intro h
    have hfil : s.bookings.filter (matchCondition bid cached) = [] :=
      List.filter_eq_nil_iff.mpr (fun a ha => by simp [h a ha])
    have hmap := map_if_eq_self (matchCondition bid cached)
      (fun b => { b with status := target, updated_at := now }) s.bookings h
    simp [updateBookingStatus, hfil, hmap]
  · intro b hb hc
    have hmem : b ∈ s.bookings.filter (matchCondition bid cached) :=
      List.mem_filter.mpr ⟨hb, hc⟩
    have hie : (s.bookings.filter (matchCondition bid cached)).isEmpty = false := by
      cases hf : (s.bookings.filter (matchCondition bid cached)).isEmpty
      · rfl
      · rw [List.isEmpty_iff] at hf
        rw [hf] at hmem
        cases hmem
    refine ⟨(matchCondition_facts hc).2, ?_, ?_⟩
    · simp [updateBookingStatus, hie]
    · refine ⟨{ b with status := target, updated_at := now }, ?_, rfl, rfl, rfl, rfl⟩
      rw [updateBookingStatus_fst]
      have := List.mem_map_of_mem (fun x =>
        if matchCondition bid cached x then
          { x with status := target, updated_at := now } else x) hb
      simpa [hc] using this

/-- Witness for the amended C4 at an accepted booking whose cached status is
current: the advance to `on_the_way` lands. -/
theorem updateBookingStatus_witness :
    (mkBooking 1 2 (some 3) BookingStatus.accepted 10).status
        = BookingStatus.accepted ∧
    ((updateBookingStatus storeClaimed 1 BookingStatus.accepted
        BookingStatus.on_the_way 9).2 = none) ∧
    ∃ b2 ∈ (updateBookingStatus storeClaimed 1 BookingStatus.accepted
        BookingStatus.on_the_way 9).1.bookings,
      b2.id = (mkBooking 1 2 (some 3) BookingStatus.accepted 10).id ∧
      b2.status = BookingStatus.on_the_way ∧ b2.updated_at = 9 ∧
      b2.completed_at = (mkBooking 1 2 (some 3) BookingStatus.accepted 10).completed_at :=
  (updateBookingStatus_conditioned_on_cached storeClaimed 1
      BookingStatus.accepted BookingStatus.on_the_way 9).2.1
    (mkBooking 1 2 (some 3) BookingStatus.accepted 10) (by decide) (by decide)

/-- C5 (counterexample): the owner cancels an already-completed booking and
the operation succeeds — status moves to `cancelled` and no error is
reported, refuting the claimed `InvalidTransition` failure with the row
unchanged when the booking is already Completed. -/
theorem cancelBooking_succeeds_on_completed :
    (storeDone.bookings.map Booking.status = [BookingStatus.completed]) ∧
    ((bookingService.cancelBooking storeDone 4 6 "changed plans" 30).2 = none) ∧
    ((bookingService.cancelBooking storeDone 4 6 "changed plans" 30).1.bookings.map
        Booking.status = [BookingStatus.cancelled]) := by decide

/-- C5 (amended): under the row-level UPDATE policies, `cancelBooking`
issued by an actor who is neither the owner nor the assigned rider matches
zero rows, fails, and leaves the store unchanged; issued by the owner or the
assigned rider it succeeds REGARDLESS of the current status (including
Completed and Cancelled) and sets `status = cancelled`,
`cancelled_at = now`, `cancelled_by = actor`, `cancellation_reason = reason`.
No status precondition is checked anywhere. -/
theorem cancelBooking_policy_semantics (s : Store) (bid : BookingId) (uid : UserId)
    (reason : String) (now : Timestamp)
    (hnd : (s.bookings.map Booking.id).Nodup) :
    ((∀ b ∈ s.bookings, cancelCondition bid uid b = false) →
        bookingService.cancelBooking s bid uid reason now
          = (s, some "JSON object requested, multiple or no rows returned")) ∧
    (∀ b ∈ s.bookings, b.id = bid → canUpdateBookingPolicy uid b = true →
        (bookingService.cancelBooking s bid uid reason now).2 = none ∧
        ∃ b2 ∈ (bookingService.cancelBooking s bid uid reason now).1.bookings,
          b2.id = bid ∧ b2.status = BookingStatus.cancelled ∧
          b2.cancelled_at = some now ∧ b2.cancelled_by = some uid ∧
          b2.cancellation_reason = some reason) := by
  constructor
  · intro h
    have hcnt : (s.bookings.countP (cancelCondition bid uid)) = 0 :=
      List.countP_eq_zero.mpr (fun a ha => by simp [h a ha])
    have hmap := map_if_eq_self (cancelCondition bid uid)
      (fun b =>
        { b with
            status := BookingStatus.cancelled
            cancelled_at := some now
            cancelled_by := some uid
            cancellation_reason := some reason })
      s.bookings h
    simp [bookingService.cancelBooking, hcnt, hmap]
  · intro b hb hid hpol
    have hc : cancelCondition bid uid b = true := by
      simp [cancelCondition, hid, hpol]
    have hcnt : (s.bookings.countP (cancelCondition bid uid)) = 1 := by
      refine countP_eq_one_of_key Booking.id _ b s.bookings hnd hb hc ?_
      intro x hx hpx
      have h1 : x.id = bid := by
        simp only [cancelCondition, Bool.and_eq_true, beq_iff_eq] at hpx
        exact hpx.1
      rw [h1, hid]
    constructor
    · simp [bookingService.cancelBooking, hcnt]
    · refine ⟨{ b with
                  status := BookingStatus.cancelled
                  cancelled_at := some now
                  cancelled_by := some uid
                  cancellation_reason := some reason },
              ?_, hid, rfl, rfl, rfl, rfl⟩
      rw [cancelBooking_fst]
      have := List.mem_map_of_mem (fun x =>
        if cancelCondition bid uid x then
          { x with
              status := BookingStatus.cancelled
              cancelled_at := some now
              cancelled_by := some uid
              cancellation_reason := some reason }
        else x) hb
      simpa [hc] using this

/-- Witness for the amended C5: the owner cancels their own pending booking;
the cancellation columns are written. -/
theorem cancelBooking_witness :
    (bookingService.cancelBooking storePending 1 2 "no longer needed" 9).2 = none ∧
    ∃ b2 ∈ (bookingService.cancelBooking storePending 1 2 "no longer needed" 9).1.bookings,
      b2.id = 1 ∧ b2.status = BookingStatus.cancelled ∧
      b2.cancelled_at = some 9 ∧ b2.cancelled_by = some 2 ∧
      b2.cancellation_reason = some "no longer needed" :=
  (cancelBooking_policy_semantics storePending 1 2 "no longer needed" 9
      (by decide)).2
    (mkBooking 1 2 none BookingStatus.pending 10) (by decide) (by decide) (by decide)

/-- C1 (counterexample): `bookingService.acceptBooking` called by the
booking's already-assigned rider (an available rider, as the spec's
precondition requires) on a booking that is `on_the_way` — so the claimed
condition `status = Pending AND rider_id IS NULL` holds for no row.  The
row-level UPDATE policies nevertheless admit the row (both policy sets in the
repo admit `auth.uid() = rider_id`, whatever the status), the WITH CHECK
passes on the updated image, and the call succeeds, moving the row backward
from `on_the_way` to `accepted` — not the claimed zero-row failure with the
row unchanged. -/
theorem acceptBooking_assigned_rider_resets_status :
    (∀ b ∈ storeDriving.bookings, acceptCondition 1 b = false) ∧
    riderAvailable storeDriving 3 = true ∧
    (storeDriving.bookings.map (fun b => (b.status, b.rider_id))
        = [(BookingStatus.on_the_way, some 3)]) ∧
    ((bookingService.acceptBooking storeDriving 3 1 3).2 = none) ∧
    ((bookingService.acceptBooking storeDriving 3 1 3).1.bookings.map
        (fun b => (b.status, b.rider_id))
      = [(BookingStatus.accepted, some 3)]) := by decide

/-- C1 (amended): the accept path the app actually invokes — the
`accept_booking` stored procedure — behaves exactly as the claim states: for
an available rider, if no row satisfies `id = bid AND status = pending AND
rider_id IS NULL` the operation fails with the unavailability error and the
store is unchanged; if a row satisfies it, the conditioned write matches
exactly one row (given unique ids), the operation succeeds, the caller
becomes the assigned rider of that row with status `accepted`, and every row
not matched by the condition is untouched.  The unused
`bookingService.acceptBooking`, by contrast, is conditioned on the id and
the row-level UPDATE policies, not on `status = pending AND rider_id IS
NULL`: when the policies admit the caller on no row it fails with the store
unchanged as the claim says, but the already-assigned rider is admitted
whatever the status — see the counterexample. -/
theorem accept_booking_conditioned (s : Store) (uid : UserId) (bid : BookingId)
    (now : Timestamp) (havail : riderAvailable s uid = true)
    (hnd : (s.bookings.map Booking.id).Nodup) :
    ((∀ b ∈ s.bookings, acceptCondition bid b = false) →
        accept_booking s uid bid now
          = (s, some "Booking is not available for acceptance")) ∧
    (∀ b ∈ s.bookings, acceptCondition bid b = true →
        s.bookings.countP (acceptCondition bid) = 1 ∧
        (accept_booking s uid bid now).2 = none ∧
        (∃ b2 ∈ (accept_booking s uid bid now).1.bookings,
          b2.id = bid ∧ b2.status = BookingStatus.accepted ∧
          b2.rider_id = some uid ∧ b2.updated_at = now) ∧
        (∀ pr ∈ s.bookings.zip (accept_booking s uid bid now).1.bookings,
          acceptCondition bid pr.1 = false → pr.2 = pr.1)) ∧
    (∀ riderId : UserId,
      (∀ b ∈ s.bookings, acceptServiceCondition s uid bid b = false) →
        bookingService.acceptBooking s uid bid riderId
          = (s, some "JSON object requested, multiple or no rows returned")) := by
  refine ⟨?_, ?_, ?_⟩
  · intro h
    have hany : s.bookings.any (acceptCondition bid) = false := by
      simp only [List.any_eq_false, Bool.not_eq_true]
      exact h
    simp [accept_booking, havail, hany]
  · intro b hb hc
    have hany : s.bookings.any (acceptCondition bid) = true :=
      List.any_eq_true.mpr ⟨b, hb, hc⟩
    have heq : accept_booking s uid bid now
        = ({ s with bookings := s.bookings.map (fun x =>
              if acceptCondition bid x then
                { x with
                    status := BookingStatus.accepted
                    rider_id := some uid
                    updated_at := now }
              else x) }, none) := by
      simp [accept_booking, havail, hany]
    refine ⟨?_, ?_, ?_, ?_⟩
    · refine countP_eq_one_of_key Booking.id _ b s.bookings hnd hb hc ?_
      intro x hx hpx
      rw [(acceptCondition_facts hpx).1, (acceptCondition_facts hc).1]
    · rw [heq]
    · refine ⟨{ b with
                  status := BookingStatus.accepted
                  rider_id := some uid
                  updated_at := now },
              ?_, (acceptCondition_facts hc).1, rfl, rfl, rfl⟩
      rw [heq]
      have := List.mem_map_of_mem (fun x =>
        if acceptCondition bid x then
          { x with
              status := BookingStatus.accepted
              rider_id := some uid
              updated_at := now }
        else x) hb
      simpa [hc] using this
    · rw [heq]
      intro pr hpr hpf
      have h2 := zip_map_snd (fun x =>
        if acceptCondition bid x then
          { x with
              status := BookingStatus.accepted
              rider_id := some uid
              updated_at := now }
        else x) s.bookings pr hpr
      rw [h2]
      simp [hpf]
  · intro riderId h
    have hfil : s.bookings.filter (acceptServiceCondition s uid bid) = [] :=
      List.filter_eq_nil_iff.mpr (fun a ha => by simp [h a ha])
    have hmap := map_if_eq_self (acceptServiceCondition s uid bid)
      (acceptRow riderId) s.bookings h
    simp [bookingService.acceptBooking, hfil, hmap]

/-- Witness for the amended C1: an available rider claims a pending,
unassigned booking; the conditioned write matches exactly the one row. -/
theorem accept_booking_witness :
    storePending.bookings.countP (acceptCondition 1) = 1 ∧
    (accept_booking storePending 4 1 9).2 = none ∧
    (∃ b2 ∈ (accept_booking storePending 4 1 9).1.bookings,
        b2.id = 1 ∧ b2.status = BookingStatus.accepted ∧
        b2.rider_id = some 4 ∧ b2.updated_at = 9) ∧
    (∀ pr ∈ storePending.bookings.zip (accept_booking storePending 4 1 9).1.bookings,
        acceptCondition 1 pr.1 = false → pr.2 = pr.1) :=
  (accept_booking_conditioned storePending 4 1 9 (by decide) (by decide)).2.1
    (mkBooking 1 2 none BookingStatus.pending 10) (by decide) (by decide)

/-- C2 (counterexample): the assigned rider cancels an already-completed
booking; the operation succeeds and the observed status sequence ends with
the transition Completed → Cancelled, i.e. a booking leaves the terminal
state Completed, refuting the claimed monotonicity. -/
theorem cancel_moves_completed_to_cancelled :
    (storeCompleted.bookings.map Booking.status = [BookingStatus.completed]) ∧
    ((bookingService.cancelBooking storeCompleted 1 3 "rider cancels" 15).2 = none) ∧
    ((bookingService.cancelBooking storeCompleted 1 3 "rider cancels" 15).1.bookings.map
        Booking.status = [BookingStatus.cancelled]) := by decide

/-- C2 (amended): across the lifecycle operations reachable from the app's
call sites (creation, the `accept_booking` procedure, the StatusButton-driven
`updateBookingStatus`, and `cancelBooking`), every status change of a stored
booking is either the immediate chain successor
(`pending → accepted → on_the_way → completed`) or a move to `cancelled` —
and the move to `cancelled` is possible from ANY state, the terminal ones
included, because `cancelBooking` checks no status.  No operation skips a
chain state or reverses a chain transition other than by cancelling. -/
theorem live_ops_transition_shape (s : Store) (op : LiveOp) (i : Nat)
    (b b2 : Booking) (hb : s.bookings[i]? = some b)
    (hb2 : (applyLiveOp s op).bookings[i]? = some b2) :
    b2.status = b.status ∨ chainSucc b.status = some b2.status ∨
      b2.status = BookingStatus.cancelled := by
  cases op with
  | create uid f newId now =>
    have hlen : i < s.bookings.length := by
      by_contra hge
      rw [List.getElem?_eq_none (Nat.le_of_not_lt hge)] at hb
      cases hb
    by_cases hv : validateTripForm f = true
    · have : (applyLiveOp s (LiveOp.create uid f newId now)).bookings
          = s.bookings ++ [(bookingService.createBooking s uid f newId now).2] := by
        simp [applyLiveOp, handleSubmit, hv, bookingService.createBooking]
      rw [this, List.getElem?_append_left hlen, hb] at hb2
      left
      rw [Option.some.inj hb2]
    · have hv2 : validateTripForm f = false := by
        revert hv
        cases validateTripForm f <;> simp
      have : (applyLiveOp s (LiveOp.create uid f newId now)).bookings = s.bookings := by
        simp [applyLiveOp, handleSubmit, hv2]
      rw [this, hb] at hb2
      left
      rw [Option.some.inj hb2]
  | accept uid bid now =>
    by_cases h1 : riderAvailable s uid = true
    · by_cases h2 : s.bookings.any (acceptCondition bid) = true
      · have : (applyLiveOp s (LiveOp.accept uid bid now)).bookings
            = s.bookings.map (fun x =>
                if acceptCondition bid x then
                  { x with
                      status := BookingStatus.accepted
                      rider_id := some uid
                      updated_at := now }
                else x) := by
          simp [applyLiveOp, accept_booking, h1, h2]
        rw [this] at hb2
        rcases map_cond_getElem _ _ _ _ _ _ hb hb2 with h | ⟨hp, h⟩
        · left
          rw [h]
        · right; left
          rw [h, (acceptCondition_facts hp).2.1]
          rfl
      · have h2f : s.bookings.any (acceptCondition bid) = false := by
          revert h2
          cases s.bookings.any (acceptCondition bid) <;> simp
        have : (applyLiveOp s (LiveOp.accept uid bid now)).bookings = s.bookings := by
          simp [applyLiveOp, accept_booking, h1, h2f]
        rw [this, hb] at hb2
        left
        rw [Option.some.inj hb2]
    · have h1f : riderAvailable s uid = false := by
        revert h1
        cases riderAvailable s uid <;> simp
      have : (applyLiveOp s (LiveOp.accept uid bid now)).bookings = s.bookings := by
        simp [applyLiveOp, accept_booking, h1f]
      rw [this, hb] at hb2
      left
      rw [Option.some.inj hb2]
  | advance bid cached now =>
    cases cached with
    | accepted =>
      have : (applyLiveOp s (LiveOp.advance bid BookingStatus.accepted now)).bookings
          = s.bookings.map (fun x =>
              if matchCondition bid BookingStatus.accepted x then
                { x with status := BookingStatus.on_the_way, updated_at := now }
              else x) := by
        simp [applyLiveOp, statusButtonTarget, updateBookingStatus_fst]
      rw [this] at hb2
      rcases map_cond_getElem _ _ _ _ _ _ hb hb2 with h | ⟨hp, h⟩
      · left
        rw [h]
      · right; left
        rw [h, (matchCondition_facts hp).2]
        rfl
    | on_the_way =>
      have : (applyLiveOp s (LiveOp.advance bid BookingStatus.on_the_way now)).bookings
          = s.bookings.map (fun x =>
              if matchCondition bid BookingStatus.on_the_way x then
                { x with status := BookingStatus.completed, updated_at := now }
              else x) := by
        simp [applyLiveOp, statusButtonTarget, updateBookingStatus_fst]
      rw [this] at hb2
      rcases map_cond_getElem _ _ _ _ _ _ hb hb2 with h | ⟨hp, h⟩
      · left
        rw [h]
      · right; left
        rw [h, (matchCondition_facts hp).2]
        rfl
    | pending =>
      have : (applyLiveOp s (LiveOp.advance bid BookingStatus.pending now)).bookings
          = s.bookings := by
        simp [applyLiveOp, statusButtonTarget]
      rw [this, hb] at hb2
      left
      rw [Option.some.inj hb2]
    | completed =>
      have : (applyLiveOp s (LiveOp.advance bid BookingStatus.completed now)).bookings
          = s.bookings := by
        simp [applyLiveOp, statusButtonTarget]
      rw [this, hb] at hb2
      left
      rw [Option.some.inj hb2]
    | cancelled =>
      have : (applyLiveOp s (LiveOp.advance bid BookingStatus.cancelled now)).bookings
          = s.bookings := by
        simp [applyLiveOp, statusButtonTarget]
      rw [this, hb] at hb2
      left
      rw [Option.some.inj hb2]
  | cancel bid uid reason now =>
    have : (applyLiveOp s (LiveOp.cancel bid uid reason now)).bookings
        = s.bookings.map (fun x =>
            if cancelCondition bid uid x then
              { x with
                  status := BookingStatus.cancelled
                  cancelled_at := some now
                  cancelled_by := some uid
                  cancellation_reason := some reason }
            else x) := by
      simp [applyLiveOp, cancelBooking_fst]
    rw [this] at hb2
    rcases map_cond_getElem _ _ _ _ _ _ hb hb2 with h | ⟨hp, h⟩
    · left
      rw [h]
    · right; right
      rw [h]

/-- Witness for the amended C2: the accept procedure applied to the pending
fixture performs the chain step Pending → Accepted at position 0. -/
theorem live_ops_transition_witness :
    acceptedFixture.status = (mkBooking 1 2 none BookingStatus.pending 10).status ∨
    chainSucc (mkBooking 1 2 none BookingStatus.pending 10).status
        = some acceptedFixture.status ∨
    acceptedFixture.status = BookingStatus.cancelled :=
  live_ops_transition_shape storePending (LiveOp.accept 4 1 9) 0
    (mkBooking 1 2 none BookingStatus.pending 10) acceptedFixture
    (by decide) (by decide)

/-- C6 (counterexample): a message already delivered by the poll path is
delivered again by the push subscription; the INSERT handler appends it
without any dedupe check, so the merged view holds TWO entries with the same
message identifier, refuting the claimed exactly-one-entry idempotence. -/
theorem push_after_poll_duplicates :
    (((pushInsertHandler storeChat (pollCycle storeChat 1) (mkMessage 5 1 2 10)).map
        MessageWithSender.id).count 5 = 2) ∧
    ¬(((pushInsertHandler storeChat (pollCycle storeChat 1) (mkMessage 5 1 2 10)).map
        MessageWithSender.id).count 5 = 1) := by decide

/-- C6 (amended): the push handler appends an enrichable message to the view
unconditionally — delivering a message already present adds a second entry
with the same identifier — while each poll cycle rebuilds the view from the
store: the rebuilt view is sorted by creation timestamp ascending (the query
orders by `created_at` alone; no identifier tie-break exists) and contains no
duplicate identifiers when the store does not.  Deduplication therefore holds
only from the next poll tick onwards, not at push delivery. -/
theorem push_appends_poll_restores (s : Store) (bid : BookingId)
    (view : List MessageWithSender) (m : Message) (mw : MessageWithSender)
    (he : enrichMessage s.profiles m = some mw) :
    (pushInsertHandler s view m = view ++ [mw]) ∧
    (((pushInsertHandler s view m).map MessageWithSender.id).count m.id
        = ((view.map MessageWithSender.id).count m.id) + 1) ∧
    ((pollCycle s bid).Sorted
        (fun x y : MessageWithSender => x.created_at ≤ y.created_at)) ∧
    ((s.messages.map Message.id).Nodup →
        ((pollCycle s bid).map MessageWithSender.id).Nodup) := by
  have h1 : pushInsertHandler s view m = view ++ [mw] := by
    simp [pushInsertHandler, he]
  refine ⟨h1, ?_, ?_, ?_⟩
  · rw [h1, List.map_append, List.count_append]
    simp [(enrich_some_facts he).1]
  · unfold pollCycle
    refine sorted_filterMap_enrich s.profiles _ ?_
    unfold fetchBookingMessages
    exact List.sorted_insertionSort createdAsc _
  · intro hnd
    unfold pollCycle
    have h2 : ((s.messages.filter fun m2 => m2.booking_id == bid).map Message.id).Nodup :=
      hnd.sublist ((List.filter_sublist s.messages).map Message.id)
    have h3 : ((fetchBookingMessages s bid).map Message.id).Nodup := by
      unfold fetchBookingMessages
      exact (((List.perm_insertionSort createdAsc
        (s.messages.filter fun m2 => m2.booking_id == bid)).map
          Message.id).nodup_iff).mpr h2
    exact h3.sublist (filterMap_enrich_ids_sublist s.profiles (fetchBookingMessages s bid))

/-- Witness for the amended C6 at the one-message fixture with an empty
current view. -/
theorem push_appends_witness :
    (pushInsertHandler storeChat [] (mkMessage 5 1 2 10) = [] ++ [mwChat]) ∧
    (((pushInsertHandler storeChat [] (mkMessage 5 1 2 10)).map
        MessageWithSender.id).count (mkMessage 5 1 2 10).id
      = ((([] : List MessageWithSender)).map MessageWithSender.id).count
          (mkMessage 5 1 2 10).id + 1) ∧
    ((pollCycle storeChat 1).Sorted
        (fun x y : MessageWithSender => x.created_at ≤ y.created_at)) ∧
    ((storeChat.messages.map Message.id).Nodup →
        ((pollCycle storeChat 1).map MessageWithSender.id).Nodup) :=
  push_appends_poll_restores storeChat 1 [] (mkMessage 5 1 2 10) mwChat (by decide)

/-- C8: in a poll cycle, a message whose sender profile cannot be resolved is
omitted from that cycle's delivered batch; every other message of the batch
whose profile resolves is still delivered, in creation-time order; and on a
later cycle in which the profile resolves, the formerly omitted message is
delivered. -/
theorem pollCycle_drop_and_retry (s s2 : Store) (bid : BookingId) (m : Message)
    (hnd : (s.messages.map Message.id).Nodup)
    (hm : m ∈ s.messages) (hbid : m.booking_id = bid)
    (hmiss : lookupProfile s.profiles m.sender_id = none)
    (hm2 : m ∈ s2.messages)
    (hfound : (lookupProfile s2.profiles m.sender_id).isSome = true) :
    (m.id ∉ (pollCycle s bid).map MessageWithSender.id) ∧
    (∀ m2 ∈ s.messages, m2.booking_id = bid →
        (lookupProfile s.profiles m2.sender_id).isSome = true →
        m2.id ∈ (pollCycle s bid).map MessageWithSender.id) ∧
    ((pollCycle s bid).Sorted
        (fun x y : MessageWithSender => x.created_at ≤ y.created_at)) ∧
    (m.id ∈ (pollCycle s2 bid).map MessageWithSender.id) := by
  refine ⟨pollCycle_not_mem_of_missing s bid m hnd hm hmiss, ?_, ?_, ?_⟩
  · intro m2 h1 h2 h3
    exact pollCycle_mem_of_enrichable s bid m2 h1 h2 h3
  · unfold pollCycle
    refine sorted_filterMap_enrich s.profiles _ ?_
    unfold fetchBookingMessages
    exact List.sorted_insertionSort createdAsc _
  · exact pollCycle_mem_of_enrichable s2 bid m hm2 hbid hfound

/-- Witness for C8 at the two-message fixture: message 5 (sender profile
missing) is dropped, message 6 is delivered, and message 5 arrives once the
profile of sender 2 exists. -/
theorem pollCycle_drop_and_retry_witness :
    ((mkMessage 5 1 2 10).id ∉ (pollCycle storePollGap 1).map MessageWithSender.id) ∧
    (∀ m2 ∈ storePollGap.messages, m2.booking_id = 1 →
        (lookupProfile storePollGap.profiles m2.sender_id).isSome = true →
        m2.id ∈ (pollCycle storePollGap 1).map MessageWithSender.id) ∧
    ((pollCycle storePollGap 1).Sorted
        (fun x y : MessageWithSender => x.created_at ≤ y.created_at)) ∧
    ((mkMessage 5 1 2 10).id ∈ (pollCycle storePollFull 1).map MessageWithSender.id) :=
  pollCycle_drop_and_retry storePollGap storePollFull 1 (mkMessage 5 1 2 10)
    (by decide) (by decide) (by decide) (by decide) (by decide) (by decide)

end TripTask
